import Mathlib

/-!
Shallow embedding of two source files of the eWoms/dumux code base:

* `src/ewoms/boxmodels/blackoil/blackoilmodel.hh` — the black-oil box
  model's primary-variable/equation naming and weighting functions and its
  `init` routine;
* `src/test/transport/test_fvtransport.cc` — the explicit finite-volume
  transport driver (`main`) together with the time-loop behaviour it
  configures.

Modelling conventions: the C++ `double` scalar type is embedded as `ℚ`
(exact arithmetic over the same field operations), `int` as `Int`, an
`assert(false)` path as `Option.none`, and string production via
`std::ostringstream` as `String` concatenation.  Compile-time template
parameters (the `Indices` table, `numPhases`, `numComponents`, the
`FluidSystem` callbacks `phaseName` and `molarMass`) become explicit
arguments of the embedded functions.
-/

namespace BlackOil

/-- The compile-time index table supplied by the `Indices` property of the
type tag.  The concrete numeric values live in a header that is not part of
the excerpted sources, so the embedded functions are parameterized over
them. -/
structure IndicesT where
  pressure0Idx : Int
  saturation0Idx : Int
  conti0EqIdx : Int

/-- Modelled from the spec: the concrete index values (the black-oil
indices header is missing from the sources).  The model documentation in
`blackoilmodel.hh` lists the primary variables in order — the pressure of
the phase with the lowest index first, then the saturations of the phases
with the lowest indices — and the spec describes the equation slots as the
contiguous range starting at `conti0`.  Hence `pressure0Idx = 0`,
`saturation0Idx = 1`, `conti0EqIdx = 0`. -/
def specIndices : IndicesT := ⟨0, 1, 0⟩

/-- The black-oil model is a three-phase model (water, gas, oil); the value
of the `NumPhases` property. -/
def specNumPhases : Int := 3

/-- The black-oil model has three components (Water, Gas, Oil); the value
of `FluidSystem::numComponents`. -/
def specNumComponents : Int := 3

/-- A concrete stand-in for `FluidSystem::phaseName`, used only to evaluate
the string-producing functions at concrete slots. -/
def specPhaseName (phaseIdx : Int) : String :=
  if phaseIdx = 0 then "water" else if phaseIdx = 1 then "gas" else "oil"

/-- A concrete stand-in for `FluidSystem::molarMass` (kg/mol), used only to
evaluate the weighting functions at concrete slots. -/
def specMolarMass (compIdx : Int) : ℚ :=
  if compIdx = 0 then 18 / 1000 else if compIdx = 1 then 16 / 1000 else 114 / 1000

/-- `BlackOilModel::primaryVarName` (blackoilmodel.hh, lines 143–158):
the pressure slot yields `"pressure_" ++ phaseName 0`; a slot in the closed
range `[saturation0Idx, saturation0Idx + numPhases - 1]` yields
`"saturation_" ++ phaseName (pvIdx - saturation0Idx)`; every other slot
hits `assert(false)`, embedded as `none`. -/
def primaryVarName (ix : IndicesT) (numPhases : Int) (phaseName : Int → String)
    (pvIdx : Int) : Option String :=
  if pvIdx = ix.pressure0Idx then
    some ("pressure_" ++ phaseName 0)
  else if ix.saturation0Idx ≤ pvIdx ∧ pvIdx ≤ ix.saturation0Idx + numPhases - 1 then
    some ("saturation_" ++ phaseName (pvIdx - ix.saturation0Idx))
  else
    none

/-- `BlackOilModel::eqName` (blackoilmodel.hh, lines 163–173): a slot in
the half-open range `[conti0EqIdx, conti0EqIdx + numComponents)` yields
`"conti_" ++ phaseName (eqIdx - conti0EqIdx)`; every other slot hits
`assert(false)`, embedded as `none`. -/
def eqName (ix : IndicesT) (numComponents : Int) (phaseName : Int → String)
    (eqIdx : Int) : Option String :=
  if ix.conti0EqIdx ≤ eqIdx ∧ eqIdx < ix.conti0EqIdx + numComponents then
    some ("conti_" ++ phaseName (eqIdx - ix.conti0EqIdx))
  else
    none

/-- `BlackOilModel::primaryVarWeight` (blackoilmodel.hh, lines 178–185).
`sol t v i` stands for `this->solution(t)[v][i]`.  For the pressure slot
the code computes `std::min(1.0 / absPv, 1.0)` with
`absPv = std::abs(solution(1)[vertex][pvIdx])`; IEEE arithmetic gives
`1.0 / 0.0 = +inf` and `min(+inf, 1) = 1`, so the exact-arithmetic
embedding makes the `absPv = 0` branch explicit and returns `1` there.
Every non-pressure slot yields `1`. -/
def primaryVarWeight (ix : IndicesT) (sol : ℕ → Int → Int → ℚ)
    (globalVertexIdx pvIdx : Int) : ℚ :=
  if pvIdx = ix.pressure0Idx then
    if |sol 1 globalVertexIdx pvIdx| = 0 then 1
    else min (1 / |sol 1 globalVertexIdx pvIdx|) 1
  else 1

/-- `BlackOilModel::eqWeight` (blackoilmodel.hh, lines 190–197): with
`compIdx = eqIdx - conti0EqIdx`, the code asserts
`0 <= compIdx && compIdx <= numPhases` (embedded as `none` on violation)
and returns `FluidSystem::molarMass(compIdx)`.  The method receives the
model's solution state and a vertex index but reads neither. -/
def eqWeight (ix : IndicesT) (numPhases : Int) (molarMass : Int → ℚ)
    (sol : ℕ → Int → Int → ℚ) (globalVertexIdx eqIdx : Int) : Option ℚ :=
  let compIdx := eqIdx - ix.conti0EqIdx
  if 0 ≤ compIdx ∧ compIdx ≤ numPhases then some (molarMass compIdx) else none

/-- The mutable state touched by `BlackOilModel::init`: whether the parent
box model was initialized and the singular-matrix detection threshold of
`Dune::FMatrixPrecision` (a `Scalar`). -/
structure ModelState where
  parentInitDone : Bool
  singularLimit : ℚ

/-- `BlackOilModel::init` (blackoilmodel.hh, lines 127–132): runs
`ParentType::init` and then
`Dune::FMatrixPrecision<Scalar>::set_singular_limit(1e-35)`. -/
def init (_s : ModelState) : ModelState :=
  ⟨true, 1 / 10 ^ 35⟩

/-- Modelled from the spec: Dune's local-matrix inversion (an external
collaborator, not among the sources) treats a pivot as singular when its
magnitude falls below the configured singular limit, instead of silently
inverting the matrix. -/
def treatedAsSingular (limit pivot : ℚ) : Prop := |pivot| < limit

end BlackOil

namespace Transport

/-- The configuration values assembled by `main` in
`src/test/transport/test_fvtransport.cc`, lines 20–58. -/
structure TestConfig where
  dim : ℕ
  tStart : ℚ
  tEnd : ℚ
  cFLFactor : ℚ
  maxDT : ℚ
  modulo : ℕ
  cellsX : ℕ
  cellsY : ℕ
  lowerLeftX : ℚ
  lowerLeftY : ℚ
  upperRightX : ℚ
  upperRightY : ℚ
  initsat : ℚ
  velocityX : ℚ
  velocityY : ℚ

/-- The literal values from `main`: `dim = 2`, `tStart = 0`, `tEnd = 4e9`,
`cFLFactor = 0.99`, `maxDT = 1e100`, `modulo = 10`; the grid is built from
`N = (16, 1)` (`N(1); N[0] = 16`), `L = (0, 0)` and `H = (600, 300)`
(`H(300); H[0] = 600`); `initsat = 0` and the injection velocity is
`(1.0/6.0 * 1e-6, 0)` (`velocity(0); velocity[0] = 1.0/6.0*1e-6`). -/
def testConfig : TestConfig :=
  ⟨2, 0, 4 * 10 ^ 9, 99 / 100, 10 ^ 100, 10, 16, 1, 0, 0, 600, 300, 0,
    1 / 6 * (1 / 10 ^ 6), 0⟩

/-- The subset of the configuration handed to the time loop
(`Dumux::TimeLoop(gridView, tStart, tEnd, "timeloop", modulo, cFLFactor,
maxDT, maxDT)`). -/
structure LoopConfig where
  tStart : ℚ
  tEnd : ℚ
  cflFactor : ℚ
  maxDT : ℚ
  modulo : ℕ

/-- The time-loop configuration of the reference transport test. -/
def testLoopConfig : LoopConfig :=
  ⟨testConfig.tStart, testConfig.tEnd, testConfig.cFLFactor, testConfig.maxDT,
    testConfig.modulo⟩

/-- Modelled from the spec: the CFL-limited candidate step size (the time
loop's implementation, `dumux/timedisc/timeloop.hh`, is not among the
sources).  The candidate is `cflFactor` times the minimum over faces of
`poreVolume / |flux|` — passed here as the already-minimized quantity
`minPoreVolumePerFlux` — capped by the configured maximum step size. -/
def cflStep (cfg : LoopConfig) (minPoreVolumePerFlux : ℚ) : ℚ :=
  min (cfg.cflFactor * minPoreVolumePerFlux) cfg.maxDT

/-- Modelled from the spec: the step-rejection retry policy — if the
saturation update is not numerically valid for the candidate step, the step
is halved and retried; fuel bounds the number of attempts (the spec leaves
the retry limit open). -/
def retryStep (valid : ℚ → Bool) : ℕ → ℚ → Option ℚ
  | 0, _ => none
  | n + 1, dt => if valid dt then some dt else retryStep valid n (dt / 2)

/-- Modelled from the spec: the transport time loop.  Starting at time `t`,
each iteration computes the CFL candidate step, resolves rejections by
halving, accepts the resulting step and advances time; the loop terminates
when `tEnd ≤ t` (or when fuel or retries are exhausted).  The function
returns the list of accepted step sizes. -/
def acceptedSteps (cfg : LoopConfig) (minPoreVolumePerFlux : ℚ)
    (valid : ℚ → Bool) (retryFuel : ℕ) : ℕ → ℚ → List ℚ
  | 0, _ => []
  | fuel + 1, t =>
    if cfg.tEnd ≤ t then []
    else
      match retryStep valid retryFuel (cflStep cfg minPoreVolumePerFlux) with
      | none => []
      | some dt =>
          dt :: acceptedSteps cfg minPoreVolumePerFlux valid retryFuel fuel (t + dt)

/-- How a run of the body of `main` can end: normally (reaching the
`return 0`), with an escaping `Dune::Exception`, or with any other
exception. -/
inductive MainOutcome
  | ok
  | duneError (msg : String)
  | otherError
deriving DecidableEq

/-- The observable result of the process: its exit status and the message
printed to `std::cerr`, if any. -/
structure MainResult where
  exitCode : Int
  errMsg : Option String
deriving DecidableEq

/-- `main` of `src/test/transport/test_fvtransport.cc` (lines 17–70): the
normal path returns `0`; a `Dune::Exception` is caught and reported as
`"Dune reported error: <e>"`, any other exception as
`"Unknown exception thrown!"`.  Neither catch handler returns a value, so
control falls off the end of `main`, which in C++ yields exit status `0`
in every case. -/
def mainRun : MainOutcome → MainResult
  | .ok => ⟨0, none⟩
  | .duneError m => ⟨0, some ("Dune reported error: " ++ m)⟩
  | .otherError => ⟨0, some "Unknown exception thrown!"⟩

end Transport

namespace BlackOil

/-- C1: for every slot, `primaryVarName` returns `"pressure_"` followed by
the name of phase 0 on the pressure slot, `"saturation_"` followed by the
name of phase `slot - saturation0Idx` on every slot of the closed range
`[saturation0Idx, saturation0Idx + numPhases - 1]`, and fails via the
assertion path on every other slot.  The hypothesis records that the
pressure slot lies outside the saturation range (true of the actual index
layout), without which the first two clauses would conflict. -/
theorem claim_C1 (ix : IndicesT) (numPhases : Int) (phaseName : Int → String)
    (hdisj : ¬ (ix.saturation0Idx ≤ ix.pressure0Idx ∧
      ix.pressure0Idx ≤ ix.saturation0Idx + numPhases - 1))
    (pvIdx : Int) :
    (pvIdx = ix.pressure0Idx →
      primaryVarName ix numPhases phaseName pvIdx =
        some ("pressure_" ++ phaseName 0)) ∧
    (ix.saturation0Idx ≤ pvIdx ∧ pvIdx ≤ ix.saturation0Idx + numPhases - 1 →
      primaryVarName ix numPhases phaseName pvIdx =
        some ("saturation_" ++ phaseName (pvIdx - ix.saturation0Idx))) ∧
    (pvIdx ≠ ix.pressure0Idx →
      ¬ (ix.saturation0Idx ≤ pvIdx ∧ pvIdx ≤ ix.saturation0Idx + numPhases - 1) →
      primaryVarName ix numPhases phaseName pvIdx = none) := by
  refine ⟨?_, ?_, ?_⟩
  · intro h
    simp [primaryVarName, h]
  · intro h
    have hne : pvIdx ≠ ix.pressure0Idx := fun he => hdisj (he ▸ h)
    simp [primaryVarName, hne, h]
  · intro h1 h2
    simp [primaryVarName, h1, h2]

theorem claim_C1_witness :
    primaryVarName specIndices specNumPhases specPhaseName 2 =
      some ("saturation_" ++ specPhaseName 1) :=
  (claim_C1 specIndices specNumPhases specPhaseName (by decide) 2).2.1 (by decide)

/-- C2: for every equation slot, `eqName` returns `"conti_"` followed by
the phase name of index `eqIdx - conti0EqIdx` on every slot of the
half-open range `[conti0EqIdx, conti0EqIdx + numComponents)`, and fails via
the assertion path on every other slot. -/
theorem claim_C2 (ix : IndicesT) (numComponents : Int) (phaseName : Int → String)
    (eqIdx : Int) :
    (ix.conti0EqIdx ≤ eqIdx ∧ eqIdx < ix.conti0EqIdx + numComponents →
      eqName ix numComponents phaseName eqIdx =
        some ("conti_" ++ phaseName (eqIdx - ix.conti0EqIdx))) ∧
    (¬ (ix.conti0EqIdx ≤ eqIdx ∧ eqIdx < ix.conti0EqIdx + numComponents) →
      eqName ix numComponents phaseName eqIdx = none) := by
  constructor <;> intro h <;> simp [eqName, h]

theorem claim_C2_witness :
    eqName specIndices specNumComponents specPhaseName 1 =
      some ("conti_" ++ specPhaseName 1) :=
  (claim_C2 specIndices specNumComponents specPhaseName 1).1 (by decide)

/-- C3: `primaryVarWeight` returns `min (1 / |p|) 1` on the pressure slot,
where `p` is the value stored for that vertex and slot at the previous time
level (time index 1) of the solution, and returns exactly `1` on every
other slot.  The nonzero hypothesis on `p` reflects the populated
previous-time-level precondition (in exact arithmetic `1 / |p|` is only
meaningful for `p ≠ 0`; at `p = 0` IEEE arithmetic still yields weight 1,
see the definition). -/
theorem claim_C3 (ix : IndicesT) (sol : ℕ → Int → Int → ℚ)
    (globalVertexIdx pvIdx : Int) :
    (pvIdx = ix.pressure0Idx → sol 1 globalVertexIdx pvIdx ≠ 0 →
      primaryVarWeight ix sol globalVertexIdx pvIdx =
        min (1 / |sol 1 globalVertexIdx pvIdx|) 1) ∧
    (pvIdx ≠ ix.pressure0Idx →
      primaryVarWeight ix sol globalVertexIdx pvIdx = 1) := by
  constructor
  · intro h hnz
    have habs : ¬ (|sol 1 globalVertexIdx pvIdx| = 0) := abs_ne_zero.mpr hnz
    unfold primaryVarWeight
    rw [if_pos h, if_neg habs]
  · intro h
    simp [primaryVarWeight, h]

/-- A concrete solution state for evaluating the weighting functions: every
entry of every time level holds the pressure value 4. -/
def wSol : ℕ → Int → Int → ℚ := fun _ _ _ => 4

theorem claim_C3_witness :
    primaryVarWeight specIndices wSol 0 0 = min (1 / |(4 : ℚ)|) 1 :=
  (claim_C3 specIndices wSol 0 0).1 rfl (by norm_num [wSol])

/-- C4: `eqWeight` returns `molarMass compIdx` with
`compIdx = eqIdx - conti0EqIdx` whenever `0 ≤ compIdx ≤ numPhases`, and
fails via the assertion path whenever `compIdx` lies outside that closed
range. -/
theorem claim_C4 (ix : IndicesT) (numPhases : Int) (molarMass : Int → ℚ)
    (sol : ℕ → Int → Int → ℚ) (globalVertexIdx eqIdx : Int) :
    (0 ≤ eqIdx - ix.conti0EqIdx ∧ eqIdx - ix.conti0EqIdx ≤ numPhases →
      eqWeight ix numPhases molarMass sol globalVertexIdx eqIdx =
        some (molarMass (eqIdx - ix.conti0EqIdx))) ∧
    (¬ (0 ≤ eqIdx - ix.conti0EqIdx ∧ eqIdx - ix.conti0EqIdx ≤ numPhases) →
      eqWeight ix numPhases molarMass sol globalVertexIdx eqIdx = none) := by
  constructor <;> intro h
  · simp [eqWeight, h]
  · simp only [eqWeight]
    rw [if_neg h]

theorem claim_C4_witness :
    eqWeight specIndices specNumPhases specMolarMass wSol 0 2 =
      some (specMolarMass 2) :=
  (claim_C4 specIndices specNumPhases specMolarMass wSol 0 2).1 (by decide)

/-- C5 counterexample: the claim states that `primaryVarName` succeeds
exactly on the `numPhases` slots of the per-vertex primary-variable vector
(`{0, ..., numPhases - 1}` with the actual layout).  But the slot
`saturation0Idx + numPhases - 1 = 3` is accepted by `primaryVarName` while
lying outside that vector. -/
theorem claim_C5_counterexample :
    (primaryVarName specIndices specNumPhases specPhaseName 3).isSome = true ∧
    ¬ ((0 : Int) ≤ 3 ∧ (3 : Int) < specNumPhases) := by
  constructor
  · rfl
  · decide

/-- C5 amended: the set of slots on which `primaryVarName` succeeds is
`{pressure0Idx} ∪ [saturation0Idx, saturation0Idx + numPhases - 1]`, which
with the actual layout is `{0, ..., numPhases}` — it contains all
`numPhases` slots of the per-vertex primary-variable vector plus one extra
slot, so it has `1 + numPhases` elements, not `numPhases`. -/
theorem claim_C5_amended (phaseName : Int → String) (pvIdx : Int) :
    (primaryVarName specIndices specNumPhases phaseName pvIdx).isSome = true ↔
      (0 ≤ pvIdx ∧ pvIdx ≤ specNumPhases) := by
  show (if pvIdx = (0 : Int) then some ("pressure_" ++ phaseName 0)
      else if (1 : Int) ≤ pvIdx ∧ pvIdx ≤ 1 + 3 - 1 then
        some ("saturation_" ++ phaseName (pvIdx - 1))
      else none).isSome = true ↔ (0 ≤ pvIdx ∧ pvIdx ≤ 3)
  by_cases h1 : pvIdx = (0 : Int)
  · subst h1; simp
  · rw [if_neg h1]
    by_cases h2 : (1 : Int) ≤ pvIdx ∧ pvIdx ≤ 1 + 3 - 1
    · rw [if_pos h2]
      simp only [Option.isSome_some, true_iff]
      omega
    · rw [if_neg h2]
      simp only [Option.isSome_none, Bool.false_eq_true, false_iff]
      omega

/-- C10: `eqWeight` is independent of the vertex argument and of the
solution state — for a fixed equation slot it returns the same value for
every pair of vertices and every pair of solution states, unlike
`primaryVarWeight`, which reads the previous time level on the pressure
slot. -/
theorem claim_C10 (ix : IndicesT) (numPhases : Int) (molarMass : Int → ℚ)
    (sol sol' : ℕ → Int → Int → ℚ) (v v' eqIdx : Int) :
    eqWeight ix numPhases molarMass sol v eqIdx =
      eqWeight ix numPhases molarMass sol' v' eqIdx := rfl

end BlackOil

namespace BlackOil

/-- C8: after `init` completes, the singular-matrix detection threshold
equals exactly `1e-35`, and any pivot whose magnitude falls below `1e-35`
is treated as singular under that threshold. -/
theorem claim_C8 (s : ModelState) (pivot : ℚ) (h : |pivot| < 1 / 10 ^ 35) :
    (init s).singularLimit = 1 / 10 ^ 35 ∧
      treatedAsSingular (init s).singularLimit pivot :=
  ⟨rfl, h⟩

theorem claim_C8_witness :
    (init ⟨false, 0⟩).singularLimit = 1 / 10 ^ 35 ∧
      treatedAsSingular (init ⟨false, 0⟩).singularLimit (1 / 10 ^ 36) :=
  claim_C8 ⟨false, 0⟩ (1 / 10 ^ 36)
    (by rw [abs_of_pos (by norm_num : (0 : ℚ) < 1 / 10 ^ 36)]; norm_num)

end BlackOil

namespace Transport

/-- A step produced by the halving retry policy is nonnegative and no
larger than the candidate it started from. -/
theorem retryStep_le (valid : ℚ → Bool) :
    ∀ (n : ℕ) (dt s : ℚ), 0 ≤ dt → retryStep valid n dt = some s →
      0 ≤ s ∧ s ≤ dt := by
  intro n
  induction n with
  | zero =>
    intro dt s _ h
    simp [retryStep] at h
  | succ k ih =>
    intro dt s hdt h
    simp only [retryStep] at h
    by_cases hv : valid dt
    · rw [if_pos hv] at h
      cases h
      exact ⟨hdt, le_refl _⟩
    · rw [if_neg hv] at h
      have hdt2 : (0 : ℚ) ≤ dt / 2 := by linarith
      obtain ⟨h0, hle⟩ := ih (dt / 2) s hdt2 h
      exact ⟨h0, hle.trans (by linarith)⟩

/-- Every accepted step of the modelled time loop is bounded by the CFL
candidate step. -/
theorem acceptedSteps_le (cfg : LoopConfig) (m : ℚ) (valid : ℚ → Bool)
    (retryFuel : ℕ) (hc : 0 ≤ cflStep cfg m) :
    ∀ (fuel : ℕ) (t s : ℚ),
      s ∈ acceptedSteps cfg m valid retryFuel fuel t → s ≤ cflStep cfg m := by
  intro fuel
  induction fuel with
  | zero =>
    intro t s h
    simp [acceptedSteps] at h
  | succ k ih =>
    intro t s h
    simp only [acceptedSteps] at h
    by_cases ht : cfg.tEnd ≤ t
    · rw [if_pos ht] at h
      simp at h
    · rw [if_neg ht] at h
      cases hr : retryStep valid retryFuel (cflStep cfg m) with
      | none =>
        rw [hr] at h
        simp at h
      | some dt =>
        rw [hr] at h
        simp only [List.mem_cons] at h
        rcases h with rfl | h2
        · exact (retryStep_le valid retryFuel _ s hc hr).2
        · exact ih (t + dt) s h2

/-- C6: for the reference transport test's configuration, every step
accepted by the time loop satisfies both
`step ≤ cflFactor * min_over_faces (poreVolume / |flux|)` — the minimum
being passed as the nonnegative quantity `m` — and `step ≤ maxDT`, with the
configured `cflFactor` strictly less than 1. -/
theorem claim_C6 (m : ℚ) (valid : ℚ → Bool) (retryFuel fuel : ℕ) (t s : ℚ)
    (hm : 0 ≤ m)
    (hs : s ∈ acceptedSteps testLoopConfig m valid retryFuel fuel t) :
    s ≤ testLoopConfig.cflFactor * m ∧ testLoopConfig.cflFactor < 1 ∧
      s ≤ testLoopConfig.maxDT := by
  have hcf : (0 : ℚ) ≤ testLoopConfig.cflFactor := by
    norm_num [testLoopConfig, testConfig]
  have hmd : (0 : ℚ) ≤ testLoopConfig.maxDT := by
    norm_num [testLoopConfig, testConfig]
  have hc : 0 ≤ cflStep testLoopConfig m :=
    le_min (mul_nonneg hcf hm) hmd
  have hle := acceptedSteps_le testLoopConfig m valid retryFuel hc fuel t s hs
  refine ⟨hle.trans (min_le_left _ _), ?_, hle.trans (min_le_right _ _)⟩
  norm_num [testLoopConfig, testConfig]

theorem claim_C6_witness :
    (0 : ℚ) ≤ testLoopConfig.cflFactor * 0 ∧ testLoopConfig.cflFactor < 1 ∧
      (0 : ℚ) ≤ testLoopConfig.maxDT :=
  claim_C6 0 (fun _ => true) 1 1 0 0 (le_refl 0)
    (by
      have h0 : cflStep testLoopConfig 0 = 0 := by
        simp [cflStep, min_def, testLoopConfig, testConfig]
      have h1 : retryStep (fun _ => true) 1 (cflStep testLoopConfig 0) =
          some 0 := by
        rw [h0]
        rfl
      simp only [acceptedSteps, h1]
      rw [if_neg (by norm_num [testLoopConfig, testConfig] : ¬ testLoopConfig.tEnd ≤ (0:ℚ))]
      exact List.mem_cons_self 0 _)

/-- C7 counterexample: an unknown exception escaping to the boundary of
`main` is a failure, yet the process exit status is `0`, not the non-zero
status the claim requires. -/
theorem claim_C7_counterexample :
    MainOutcome.otherError ≠ MainOutcome.ok ∧
      (mainRun MainOutcome.otherError).exitCode = 0 ∧
      (mainRun MainOutcome.otherError).errMsg = some "Unknown exception thrown!" :=
  ⟨by decide, rfl, rfl⟩

/-- C7 amended: `main` catches every escaping exception and reports a
`Dune::Exception` with the distinguishing message
`"Dune reported error: <e>"` and any other exception with the generic
message `"Unknown exception thrown!"`; an error message is absent exactly
when the run completes normally.  However, the process terminates with exit
status `0` in every case — the catch handlers fall off the end of `main` —
so the exit status does not distinguish failures from normal completion. -/
theorem claim_C7_amended (o : MainOutcome) :
    (mainRun o).exitCode = 0 ∧
    ((mainRun o).errMsg = none ↔ o = MainOutcome.ok) ∧
    (∀ m, o = MainOutcome.duneError m →
      (mainRun o).errMsg = some ("Dune reported error: " ++ m)) ∧
    (o = MainOutcome.otherError →
      (mainRun o).errMsg = some "Unknown exception thrown!") := by
  refine ⟨?_, ?_, ?_, ?_⟩
  · cases o <;> rfl
  · cases o <;> simp [mainRun]
  · intro m h
    subst h
    rfl
  · intro h
    subst h
    rfl

theorem claim_C7_witness :
    (mainRun (MainOutcome.duneError "grid fault")).exitCode = 0 ∧
      (mainRun (MainOutcome.duneError "grid fault")).errMsg =
        some ("Dune reported error: " ++ "grid fault") :=
  ⟨(claim_C7_amended (MainOutcome.duneError "grid fault")).1,
    (claim_C7_amended (MainOutcome.duneError "grid fault")).2.2.1 "grid fault" rfl⟩

/-- C9: the reference transport test configures the run with a rectangular
domain of 600 by 300, 16 cells in the x-direction and 1 in the
y-direction, initial saturation 0, constant injection velocity
`1/6 * 1e-6` in x (0 in y), `cflFactor = 0.99`, start time 0, end time
`4e9`, and one output per 10 accepted steps. -/
theorem claim_C9 :
    testConfig.upperRightX = 600 ∧ testConfig.upperRightY = 300 ∧
    testConfig.cellsX = 16 ∧ testConfig.cellsY = 1 ∧
    testConfig.initsat = 0 ∧
    testConfig.velocityX = 1 / 6000000 ∧ testConfig.velocityY = 0 ∧
    testConfig.cFLFactor = 99 / 100 ∧
    testConfig.tStart = 0 ∧ testConfig.tEnd = 4000000000 ∧
    testConfig.modulo = 10 ∧
    testLoopConfig.cflFactor = testConfig.cFLFactor ∧
    testLoopConfig.tStart = testConfig.tStart ∧
    testLoopConfig.tEnd = testConfig.tEnd ∧
    testLoopConfig.modulo = testConfig.modulo := by
  norm_num [testConfig, testLoopConfig]

end Transport
